import Mathlib

/-!
Verification of the crawl-recipe execution engine
(`.agents/skills/crawl-recipe/scripts/execute_recipe.py`).

The Python source is shallowly embedded: extracted values become the
inductive `Value`, the Python `re` module (an external library) is modelled
by the abstract engine `ReEngine`, the Playwright page collaborator by
`PageState` / `Elem`, and each Python function becomes a Lean definition of
the same name.  Fallible Python code (a transform raising `re.error`) is
embedded with `Except Unit`.
-/

namespace CrawlRecipeExec

/-- Python truthiness of an optional string: `None` and `""` are falsy. -/
def optTruthy : Option String → Bool
  | some s => s != ""
  | none => false

/-- Python `x or ''` applied to an optional string. -/
def pyOrEmpty (o : Option String) : String := o.getD ""

/-- Whitespace characters stripped by Python `str.strip()` (ASCII part). -/
def pyIsSpace (c : Char) : Bool :=
  (c == ' ') || (c == '\t') || (c == '\n') || (c == '\r') ||
    (c == Char.ofNat 11) || (c == Char.ofNat 12)

/-- Python `str.strip()` on the character list: drop leading and trailing
whitespace. -/
def stripList (l : List Char) : List Char :=
  ((l.dropWhile pyIsSpace).reverse.dropWhile pyIsSpace).reverse

/-- Python `str.strip()`. -/
def pyStrip (s : String) : String := String.mk (stripList s.toList)

/-- An extracted value: Python `None`, a string, or a list
(`extract_field_value` produces strings and lists, `apply_transform`
recurses into lists). -/
inductive Value where
  | vnone : Value
  | vstr (s : String) : Value
  | vlist (items : List Value) : Value

mutual

/-- Python structural equality (`==`) on extracted values. -/
def Value.beq : Value → Value → Bool
  | .vnone, .vnone => true
  | .vstr a, .vstr b => a == b
  | .vlist as, .vlist bs => Value.beqList as bs
  | _, _ => false

/-- Python `==` on lists of extracted values. -/
def Value.beqList : List Value → List Value → Bool
  | [], [] => true
  | a :: as, b :: bs => Value.beq a b && Value.beqList as bs
  | _, _ => false

end

instance : BEq Value := ⟨Value.beq⟩

/-- Mirrors the `TransformStep` dataclass of the source. -/
structure TransformStep where
  type : String
  pattern : Option String := none
  replacement : Option String := none
  default_value : Option String := none
deriving Repr, DecidableEq

/-- A regex match as returned by Python `re.search`: the whole match
(`group(0)`) and the list of capture groups (`groups()`), where a group
that did not participate is `none`. -/
structure RMatch where
  whole : String
  groups : List (Option String)
deriving Repr, DecidableEq

/-- Model of the Python `re` module (and `str.format`-free helpers) used by
the source.  `compiles p` says whether pattern `p` compiles; `search` and
`sub` give the behaviour of `re.search` / `re.sub` on compilable patterns;
`findallNumber` models `re.findall(r'-?\d+\.?\d*', ·)` as used by
`extract_number`. -/
structure ReEngine where
  compiles : String → Bool
  search : String → String → Option RMatch
  sub : String → String → String → String
  findallNumber : String → List String

/-- `strip_html` from the source: `re.sub(r'<[^>]+>', '', html)`. -/
def strip_html (eng : ReEngine) (html : String) : String :=
  eng.sub "<[^>]+>" "" html

/-- `extract_number` from the source: remove commas, find all signed
decimal numbers, return the first or the empty string. -/
def extract_number (eng : ReEngine) (text : String) : String :=
  match eng.findallNumber (text.replace "," "") with
  | m :: _ => m
  | [] => ""

/-- The scalar branch of `apply_transform` (after the `None` and list
checks, `value = str(value)` has run).  A `regex`/`replace` step whose
pattern does not compile raises `re.error` in Python; that is the
`.error ()` outcome. -/
def applyTransformStr (eng : ReEngine) (t : TransformStep) (value : String) :
    Except Unit Value :=
  if t.type = "trim" then .ok (.vstr (pyStrip value))
  else if t.type = "strip_html" then .ok (.vstr (strip_html eng value))
  else if t.type = "extract_number" then .ok (.vstr (extract_number eng value))
  else if t.type = "regex" then
    if optTruthy t.pattern then
      let p := pyOrEmpty t.pattern
      if eng.compiles p then
        match eng.search p value with
        | some m =>
          match m.groups with
          | [] => .ok (.vstr m.whole)
          | g :: _ =>
            match g with
            | some s => .ok (.vstr s)
            | none => .ok .vnone
        | none => .ok (.vstr "")
      else .error ()
    else .ok (.vstr "")
  else if t.type = "replace" then
    if optTruthy t.pattern then
      let p := pyOrEmpty t.pattern
      let replacement := pyOrEmpty t.replacement
      if eng.compiles p then .ok (.vstr (eng.sub p replacement value))
      else .error ()
    else .ok (.vstr value)
  else if t.type = "default" then
    if pyStrip value = "" then .ok (.vstr (pyOrEmpty t.default_value))
    else .ok (.vstr value)
  else .ok (.vstr value)

mutual

/-- `apply_transform` from the source: `None` becomes `''`, a list is
transformed elementwise, a scalar goes through the tag dispatch. -/
def apply_transform (eng : ReEngine) (t : TransformStep) : Value → Except Unit Value
  | .vnone => applyTransformStr eng t ""
  | .vstr s => applyTransformStr eng t s
  | .vlist items => (applyTransformList eng t items).map Value.vlist

/-- The list comprehension `[apply_transform(v, transform) for v in value]`:
elementwise, propagating a raised exception. -/
def applyTransformList (eng : ReEngine) (t : TransformStep) :
    List Value → Except Unit (List Value)
  | [] => .ok []
  | v :: vs => do
    let w ← apply_transform eng t v
    let ws ← applyTransformList eng t vs
    .ok (w :: ws)

end

/-- `apply_transforms` from the source: fold the steps left to right. -/
def apply_transforms (eng : ReEngine) : Value → List TransformStep → Except Unit Value
  | v, [] => .ok v
  | v, t :: ts => (apply_transform eng t v).bind (fun w => apply_transforms eng w ts)

/-- A trivial concrete regex engine used by concrete runs whose recipes
carry no regex transforms. -/
def engTrivial : ReEngine where
  compiles := fun _ => true
  search := fun _ _ => none
  sub := fun _ _ v => v
  findallNumber := fun _ => []

/-- Mirrors the `ExtractConfig` dataclass of the source. -/
structure ExtractConfig where
  type : String
  attributeName : Option String := none
deriving Repr, DecidableEq

/-- Mirrors the `ExportField` dataclass of the source. -/
structure ExportField where
  field_name : String
  selector : String
  selector_type : String := "css"
  extract : ExtractConfig
  transforms : List TransformStep := []
  multiple : Bool := false
  fallback_selectors : List String := []
  list_container : Option String := none
deriving Repr, DecidableEq

/-- Mirrors the `PaginationConfig` dataclass of the source. -/
structure PaginationConfig where
  type : String
  selector : Option String := none
  url_template : Option String := none
  max_pages : Nat := 1
  wait_ms : Nat := 1000
deriving Repr, DecidableEq

/-- Mirrors the `CrawlRecipe` dataclass of the source. -/
structure CrawlRecipe where
  name : String
  url_pattern : String
  version : String := "1.0"
  fields : List ExportField
  pagination : Option PaginationConfig := none

/-- A DOM element handle as the collaborator exposes it: rendered text
content, inner markup, and the attribute map. -/
structure Elem where
  textContent : Option String := none
  innerHtml : Option String := none
  attrs : List (String × String) := []
deriving Repr, DecidableEq

/-- Playwright `locator.get_attribute`. -/
def Elem.getAttribute (e : Elem) (name : String) : Option String :=
  (e.attrs.find? (fun kv => kv.1 == name)).map (fun kv => kv.2)

/-- The current page as seen through the collaborator:
`page.locator(sel).all()` is `elems sel` (and `.first` / `.count()` are its
head / length). -/
structure PageState where
  elems : String → List Elem

/-- `extract_from_locator` from the source (the visibility wait is
swallowed): `text` and `html` map a missing value to `''`; `attribute`
requires a truthy attribute name; any other mode yields `None`. -/
def extract_from_locator (locator : Elem) (extract : ExtractConfig) : Option String :=
  if extract.type = "text" then some (pyOrEmpty locator.textContent)
  else if extract.type = "html" then some (pyOrEmpty locator.innerHtml)
  else if extract.type = "attribute" then
    if optTruthy extract.attributeName then
      some (pyOrEmpty (locator.getAttribute (pyOrEmpty extract.attributeName)))
    else none
  else none

/-- One iteration of the candidate-selector loop in `extract_field_value`:
`some v` is the `return transformed` exit, `none` means the candidate
failed (zero matches, no raw value, or an exception inside the `try`,
e.g. a transform raising `re.error`) and the loop advances. -/
def extractCandidate (eng : ReEngine) (page : PageState) (f : ExportField)
    (sel : String) : Option Value :=
  if f.multiple then
    match page.elems sel with
    | [] => none
    | locs =>
      let values := locs.filterMap (fun e =>
        match extract_from_locator e f.extract with
        | some s => if s = "" then none else some s
        | none => none)
      if values.isEmpty then none
      else
        match apply_transforms eng (.vlist (values.map Value.vstr)) f.transforms with
        | .ok v => some v
        | .error _ => none
  else
    match page.elems sel with
    | [] => none
    | e :: _ =>
      match extract_from_locator e f.extract with
      | none => none
      | some s =>
        match apply_transforms eng (.vstr s) f.transforms with
        | .ok v => some v
        | .error _ => none

/-- The `for selector in selectors` loop of `extract_field_value` with its
fall-through result `None` / `[]`. -/
def extractFieldGo (eng : ReEngine) (page : PageState) (f : ExportField) :
    List String → Value
  | [] => if f.multiple then .vlist [] else .vnone
  | sel :: rest =>
    match extractCandidate eng page f sel with
    | some v => v
    | none => extractFieldGo eng page f rest

/-- `extract_field_value` from the source: first-match-wins over
`[field.selector] + field.fallback_selectors`. -/
def extract_field_value (eng : ReEngine) (page : PageState) (f : ExportField) : Value :=
  extractFieldGo eng page f (f.selector :: f.fallback_selectors)

/-- A record, as built by `extract_data_from_page`: field name to value, in
declaration order (Python dict preserves insertion order). -/
abbrev Record := List (String × Value)

/-- `extract_data_from_page` from the source. -/
def extract_data_from_page (eng : ReEngine) (page : PageState)
    (recipe : CrawlRecipe) : Record :=
  recipe.fields.map (fun f => (f.field_name, extract_field_value eng page f))

/-- Python `v not in (None, '', [])` combined with the truthiness check of
`any(...)` in the has-data predicates (the two coincide for the values the
engine produces). -/
def valueHasData : Value → Bool
  | .vnone => false
  | .vstr s => s != ""
  | .vlist l => !l.isEmpty

/-- `has_data = any(v for v in data.values() if v not in (None, '', []))`. -/
def recordHasData (data : Record) : Bool :=
  data.any (fun kv => valueHasData kv.2)

/-- Python `==` on two records built from the same recipe (same keys in the
same order, as `extract_data_from_page` guarantees). -/
def recordBeq : Record → Record → Bool
  | [], [] => true
  | (k1, v1) :: r1, (k2, v2) :: r2 => k1 == k2 && Value.beq v1 v2 && recordBeq r1 r2
  | _, _ => false

/-- Which exit a pagination loop took (each `break` / loop exhaustion in the
source prints a distinct message). -/
inductive TermReason where
  | maxPagesReached
  | noPagination
  | noSelector
  | noNextButton
  | buttonDisabled
  | navigationError
  | emptyPage
  | noTemplate
  | stalled
  | maxScrollsReached
deriving Repr, DecidableEq

/-- The `while current_page <= max_pages` loop of
`handle_next_button_pagination`; `env k` is the page state after `k`
next-button clicks; `fuel` is the number of page visits still allowed.
A locator with two or more matches makes `get_attribute` raise a strict-mode
error, caught by the `except` as a pagination error. -/
def nextButtonLoop (eng : ReEngine) (env : Nat → PageState) (recipe : CrawlRecipe)
    (pag : PaginationConfig) : Nat → Nat → List Record → List Record × TermReason
  | 0, _, results => (results, .maxPagesReached)
  | fuel + 1, stateIdx, results =>
    let page := env stateIdx
    let data := extract_data_from_page eng page recipe
    let results := if recordHasData data then results ++ [data] else results
    if optTruthy pag.selector then
      let sel := pyOrEmpty pag.selector
      match page.elems sel with
      | [] => (results, .noNextButton)
      | [btn] =>
        if optTruthy (btn.getAttribute "disabled")
            || optTruthy (btn.getAttribute "aria-disabled") then
          (results, .buttonDisabled)
        else
          nextButtonLoop eng env recipe pag fuel (stateIdx + 1) results
      | _ :: _ :: _ => (results, .navigationError)
    else (results, .noSelector)

/-- `handle_next_button_pagination` from the source. -/
def handle_next_button_pagination (eng : ReEngine) (env : Nat → PageState)
    (recipe : CrawlRecipe) : List Record × TermReason :=
  match recipe.pagination with
  | none => ([], .noPagination)
  | some pag => nextButtonLoop eng env recipe pag pag.max_pages 0 []

/-- The `for page_num in range(1, max_pages + 1)` loop of
`handle_url_pattern_pagination`; `fetch n` is the page state obtained by
navigating to `url_template.format(page=n)`, `none` when `page.goto`
raises. -/
def urlPatternLoop (eng : ReEngine) (fetch : Nat → Option PageState)
    (recipe : CrawlRecipe) : Nat → Nat → List Record → List Record × TermReason
  | 0, _, results => (results, .maxPagesReached)
  | fuel + 1, pageNum, results =>
    match fetch pageNum with
    | none => (results, .navigationError)
    | some page =>
      let data := extract_data_from_page eng page recipe
      if recordHasData data then
        urlPatternLoop eng fetch recipe fuel (pageNum + 1) (results ++ [data])
      else (results, .emptyPage)

/-- `handle_url_pattern_pagination` from the source. -/
def handle_url_pattern_pagination (eng : ReEngine) (fetch : Nat → Option PageState)
    (recipe : CrawlRecipe) : List Record × TermReason :=
  match recipe.pagination with
  | none => ([], .noPagination)
  | some pag =>
    if optTruthy pag.url_template then
      urlPatternLoop eng fetch recipe pag.max_pages 1 []
    else ([], .noTemplate)

/-- The for-else block of `handle_infinite_scroll_pagination`: did some
`multiple` field produce a list strictly longer than `last_results_count`?
(`.get(field_name, [])` defaults a missing key to the empty list, and a
non-list value never triggers the `isinstance` guard.) -/
def anyMultipleGrew (recipe : CrawlRecipe) (data : Record) (lastCount : Nat) : Bool :=
  recipe.fields.any (fun f =>
    f.multiple &&
      (match (data.find? (fun kv => kv.1 == f.field_name)).map (fun kv => kv.2) with
       | some (Value.vlist l) => decide (lastCount < l.length)
       | some _ => false
       | none => decide (lastCount < ([] : List Value).length)))

/-- The `while scroll_attempts < pagination.max_pages` loop of
`handle_infinite_scroll_pagination`; `env k` is the page after `k` scrolls.
Both `last_results_count` (never reassigned in the source) and
`no_new_content_count` are threaded explicitly; `max_no_new_content = 3`. -/
def infiniteScrollLoop (eng : ReEngine) (env : Nat → PageState) (recipe : CrawlRecipe) :
    Nat → Nat → Nat → Nat → List Record → List Record × TermReason
  | 0, _, _, _, results => (results, .maxScrollsReached)
  | fuel + 1, stateIdx, lastResultsCount, noNewContentCount, results =>
    let data := extract_data_from_page eng (env stateIdx) recipe
    let hasData := recordHasData data
    let isListField := recipe.fields.any (fun f => f.multiple)
    let noNew :=
      if isListField && !results.isEmpty then
        if anyMultipleGrew recipe data lastResultsCount then 0
        else noNewContentCount + 1
      else if hasData then 0
      else noNewContentCount + 1
    if 3 ≤ noNew then (results, .stalled)
    else
      let results :=
        if hasData then
          match results.getLast? with
          | none => results ++ [data]
          | some lastRec => if recordBeq data lastRec then results else results ++ [data]
        else results
      infiniteScrollLoop eng env recipe fuel (stateIdx + 1) lastResultsCount noNew results

/-- `handle_infinite_scroll_pagination` from the source. -/
def handle_infinite_scroll_pagination (eng : ReEngine) (env : Nat → PageState)
    (recipe : CrawlRecipe) : List Record × TermReason :=
  match recipe.pagination with
  | none => ([], .noPagination)
  | some pag => infiniteScrollLoop eng env recipe pag.max_pages 0 0 0 []

/-- The collaborator-side world a run sees: the initially loaded page, the
page after each next-button click, navigation by page number for the URL
strategy, and the page after each scroll. -/
structure World where
  initial : PageState
  clickStates : Nat → PageState
  fetchPage : Nat → Option PageState
  scrollStates : Nat → PageState

/-- The pagination dispatch of `execute_recipe` (its `results` value): the
three recognized strategies, with the single-page default for a missing or
unrecognized pagination type. -/
def executeRecipeResults (eng : ReEngine) (world : World) (recipe : CrawlRecipe) :
    List Record :=
  match recipe.pagination with
  | some pag =>
    if pag.type = "next_button" then
      (handle_next_button_pagination eng world.clickStates recipe).1
    else if pag.type = "url_pattern" then
      (handle_url_pattern_pagination eng world.fetchPage recipe).1
    else if pag.type = "infinite_scroll" then
      (handle_infinite_scroll_pagination eng world.scrollStates recipe).1
    else [extract_data_from_page eng world.initial recipe]
  | none => [extract_data_from_page eng world.initial recipe]

/-- A transform entry of a recipe document (`t['type']` is a required key,
the rest are read with `.get`). -/
structure TransformDoc where
  type : String
  pattern : Option String := none
  replacement : Option String := none
  default_value : Option String := none

/-- The `extract` entry of a field document. -/
structure ExtractDoc where
  type : String
  attributeName : Option String := none

/-- A field entry of a recipe document; `none` models a missing optional
key. -/
structure FieldDoc where
  field_name : String
  selector : String
  selector_type : Option String := none
  extract : ExtractDoc
  transforms : Option (List TransformDoc) := none
  multiple : Option Bool := none
  fallback_selectors : Option (List String) := none
  list_container : Option String := none

/-- The `pagination` entry of a recipe document. -/
structure PaginationDoc where
  type : String
  selector : Option String := none
  url_template : Option String := none
  max_pages : Option Nat := none
  wait_ms : Option Nat := none

/-- A recipe document with its required top-level keys present (a missing
required key raises `KeyError` in `json`-dict access and never reaches the
dataclass construction). -/
structure RecipeDoc where
  name : String
  url_pattern : String
  version : Option String := none
  fields : Option (List FieldDoc) := none
  pagination : Option PaginationDoc := none

/-- `parse_recipe` from the source: a pure re-packaging of the document
into the dataclasses, applying the documented defaults.  No transform
pattern is inspected, compiled, or rejected. -/
def parse_recipe (data : RecipeDoc) : CrawlRecipe :=
  { name := data.name
    url_pattern := data.url_pattern
    version := data.version.getD "1.0"
    fields := (data.fields.getD []).map (fun f =>
      { field_name := f.field_name
        selector := f.selector
        selector_type := f.selector_type.getD "css"
        extract := { type := f.extract.type, attributeName := f.extract.attributeName }
        transforms := (f.transforms.getD []).map (fun t =>
          { type := t.type
            pattern := t.pattern
            replacement := t.replacement
            default_value := t.default_value })
        multiple := f.multiple.getD false
        fallback_selectors := f.fallback_selectors.getD []
        list_container := f.list_container })
    pagination := data.pagination.map (fun p =>
      { type := p.type
        selector := p.selector
        url_template := p.url_template
        max_pages := p.max_pages.getD 1
        wait_ms := p.wait_ms.getD 1000 }) }

/-- Elementwise traversal of a value list, the specification shape for the
list comprehension in `apply_transform`. -/
def mapValueM (g : Value → Except Unit Value) : List Value → Except Unit (List Value)
  | [] => .ok []
  | v :: vs => do
    let w ← g v
    let ws ← mapValueM g vs
    .ok (w :: ws)

/-! Concrete inputs used by the closed runs below. -/

/-- A page on which no selector matches anything. -/
def pageEmpty : PageState := ⟨fun _ => []⟩

/-- An element whose rendered text is `"x"`. -/
def elemX : Elem := { textContent := some "x" }

/-- An element whose rendered text is `"t"`. -/
def elemT : Elem := { textContent := some "t" }

/-- A plain next-button element with no attributes. -/
def elemBtn : Elem := {}

/-- A single-valued text field on selector `h1`. -/
def fieldTitle : ExportField :=
  { field_name := "title", selector := "h1", extract := { type := "text" } }

/-- A multi-valued text field on selector `.item`. -/
def fieldItems : ExportField :=
  { field_name := "items", selector := ".item", extract := { type := "text" },
    multiple := true }

/-- Infinite-scroll recipe: one `multiple` field, `max_pages = 20` scrolls. -/
def recipeScroll : CrawlRecipe :=
  { name := "scroll", url_pattern := "u", fields := [fieldItems],
    pagination := some { type := "infinite_scroll", max_pages := 20, wait_ms := 0 } }

/-- Matched-element count per scroll state: 2, 3, then stuck at 4 — the
count stops growing after the first three states. -/
def scrollLen (k : Nat) : Nat := if k = 0 then 2 else if k = 1 then 3 else 4

/-- Scroll environment: after `k` scrolls, `.item` matches `scrollLen k`
elements. -/
def envScroll : Nat → PageState := fun k =>
  ⟨fun sel => if sel = ".item" then List.replicate (scrollLen k) elemX else []⟩

/-- The record extracted from a scroll state with `n` items. -/
def itemsRecord (n : Nat) : Record :=
  [("items", Value.vlist (List.replicate n (Value.vstr "x")))]

/-- Next-button recipe: one text field, selector `.next`, `max_pages = 10`. -/
def recipeNext : CrawlRecipe :=
  { name := "next", url_pattern := "u", fields := [fieldTitle],
    pagination := some { type := "next_button", selector := some ".next",
                         max_pages := 10 } }

/-- Click environment: the next button exists on the first three page
states (0, 1, 2 clicks) and disappears afterwards; every state has data. -/
def envNext : Nat → PageState := fun k =>
  ⟨fun sel =>
    if sel = "h1" then [elemT]
    else if sel = ".next" then (if k < 3 then [elemBtn] else [])
    else []⟩

/-- The record extracted from every `envNext` page state. -/
def titleRecord : Record := [("title", Value.vstr "t")]

/-- URL-template recipe: one text field, `max_pages = 5`. -/
def recipeUrl : CrawlRecipe :=
  { name := "url", url_pattern := "u", fields := [fieldTitle],
    pagination := some { type := "url_pattern",
                         url_template := some "u?page=\x7bpage\x7d",
                         max_pages := 5 } }

/-- A page whose `h1` says `"a"`. -/
def pageA : PageState := ⟨fun sel => if sel = "h1" then [{ textContent := some "a" }] else []⟩

/-- A page whose `h1` says `"b"`. -/
def pageB : PageState := ⟨fun sel => if sel = "h1" then [{ textContent := some "b" }] else []⟩

/-- URL-template navigation: pages 1 and 2 have data, page 3 is empty,
navigation past page 3 would fail outright. -/
def fetchW : Nat → Option PageState := fun n =>
  if n = 1 then some pageA
  else if n = 2 then some pageB
  else if n = 3 then some pageEmpty
  else none

/-- An engine on which only the pattern `"("` fails to compile. -/
def engParen : ReEngine where
  compiles := fun p => p != "("
  search := fun _ _ => none
  sub := fun _ _ v => v
  findallNumber := fun _ => []

/-- A recipe document carrying a `regex` transform whose pattern `"("` does
not compile. -/
def badRecipeDoc : RecipeDoc :=
  { name := "r", url_pattern := "u",
    fields := some [{ field_name := "f", selector := "s",
                      extract := { type := "text" },
                      transforms := some [{ type := "regex", pattern := some "(" }] }] }

/-- An engine whose `search` finds `"ab"` with capture group `"b"` when
pattern `"a(b)"` is searched in `"xaby"`. -/
def engSearch : ReEngine where
  compiles := fun _ => true
  search := fun p s =>
    if p = "a(b)" && s = "xaby" then some { whole := "ab", groups := [some "b"] } else none
  sub := fun _ _ v => v
  findallNumber := fun _ => []

/-- Recipe with no pagination, whose only field never matches. -/
def recipeNoPag : CrawlRecipe :=
  { name := "single", url_pattern := "u", fields := [fieldTitle] }

/-- A world whose every page is empty. -/
def worldEmpty : World :=
  { initial := pageEmpty, clickStates := fun _ => pageEmpty,
    fetchPage := fun _ => none, scrollStates := fun _ => pageEmpty }

/-! Helper lemmas. -/

/-- `stripList` is leading `dropWhile` followed by Mathlib's `rdropWhile`. -/
theorem stripList_eq_rdrop (l : List Char) :
    stripList l = (l.dropWhile pyIsSpace).rdropWhile pyIsSpace := rfl

/-- A stripped list has no leading whitespace left. -/
theorem dropWhile_stripList (l : List Char) :
    (stripList l).dropWhile pyIsSpace = stripList l := by
  rw [stripList_eq_rdrop, List.dropWhile_eq_self_iff]
  intro hl
  have hpre : (l.dropWhile pyIsSpace).rdropWhile pyIsSpace <+: l.dropWhile pyIsSpace :=
    List.rdropWhile_prefix _ _
  have hlen : 0 < (l.dropWhile pyIsSpace).length := lt_of_lt_of_le hl hpre.length_le
  have hget := hpre.getElem (n := 0) hl
  rw [List.get_eq_getElem, hget]
  have := List.dropWhile_get_zero_not pyIsSpace l hlen
  simpa using this

/-- Stripping a character list twice is the same as stripping it once. -/
theorem stripList_idem (l : List Char) : stripList (stripList l) = stripList l := by
  rw [stripList_eq_rdrop (stripList l), dropWhile_stripList, stripList_eq_rdrop l,
    List.rdropWhile_idempotent]

/-- Python `str.strip()` is idempotent. -/
theorem pyStrip_idem (s : String) : pyStrip (pyStrip s) = pyStrip s := by
  unfold pyStrip
  rw [show (String.mk (stripList s.toList)).toList = stripList s.toList from rfl,
    stripList_idem]

/-- Truthiness of a present optional string. -/
theorem optTruthy_some (s : String) : optTruthy (some s) = (s != "") := rfl

/-- `pyOrEmpty` of a present optional string. -/
theorem pyOrEmpty_some (s : String) : pyOrEmpty (some s) = s := rfl

/-- If no candidate selector matches, the candidate loop falls through to
the default result. -/
theorem extractFieldGo_all_empty (eng : ReEngine) (page : PageState) (f : ExportField)
    (cands : List String) (h : ∀ sel ∈ cands, page.elems sel = []) :
    extractFieldGo eng page f cands
      = if f.multiple then Value.vlist [] else Value.vnone := by
  induction cands with
  | nil => rfl
  | cons sel rest ih =>
    have hs : page.elems sel = [] := h sel (List.mem_cons_self _ _)
    have hr : ∀ s2 ∈ rest, page.elems s2 = [] := fun s2 hsr => h s2 (List.mem_cons_of_mem _ hsr)
    have hc : extractCandidate eng page f sel = none := by
      unfold extractCandidate
      cases hm : f.multiple <;> simp [hm, hs]
    simp only [extractFieldGo, hc]
    exact ih hr

/-- The elementwise traversal of the identity is the identity. -/
theorem mapValueM_ok_id (vs : List Value) :
    mapValueM (fun v => Except.ok v) vs = .ok vs := by
  induction vs with
  | nil => rfl
  | cons v vs ih => simp [mapValueM, ih, Bind.bind, Except.bind]

/-- The source's list comprehension agrees with `mapValueM`. -/
theorem applyTransformList_eq_mapValueM (eng : ReEngine) (t : TransformStep)
    (vs : List Value) :
    applyTransformList eng t vs = mapValueM (apply_transform eng t) vs := by
  induction vs with
  | nil => rfl
  | cons v vs ih => simp [applyTransformList, mapValueM, ih]

/-- Elementwise traversal distributes over Kleisli composition in
`Except Unit`. -/
theorem mapValueM_bind (g1 g2 : Value → Except Unit Value) (vs : List Value) :
    mapValueM (fun v => (g1 v).bind g2) vs
      = (mapValueM g1 vs).bind (mapValueM g2) := by
  induction vs with
  | nil => rfl
  | cons v vs ih =>
    show (do
        let w ← (g1 v).bind g2
        let ws ← mapValueM (fun v2 => (g1 v2).bind g2) vs
        Except.ok (w :: ws))
      = ((do
          let w ← g1 v
          let ws ← mapValueM g1 vs
          Except.ok (w :: ws)).bind (mapValueM g2))
    rw [ih]
    cases h1 : g1 v with
    | error e => rfl
    | ok w =>
      show (do
          let w2 ← g2 w
          let ws ← (mapValueM g1 vs).bind (mapValueM g2)
          Except.ok (w2 :: ws))
        = ((do
            let ws ← mapValueM g1 vs
            Except.ok (w :: ws)).bind (mapValueM g2))
      cases h2 : g2 w with
      | error e =>
        cases h3 : mapValueM g1 vs with
        | error e2 => rfl
        | ok ws => simp [mapValueM, h2, Bind.bind, Except.bind]
      | ok u =>
        cases h3 : mapValueM g1 vs with
        | error e2 => rfl
        | ok ws => simp [mapValueM, h2, Bind.bind, Except.bind]

/-- A successful elementwise traversal preserves length. -/
theorem mapValueM_ok_length (g : Value → Except Unit Value) (vs ws : List Value)
    (h : mapValueM g vs = .ok ws) : ws.length = vs.length := by
  induction vs generalizing ws with
  | nil => simp [mapValueM] at h; simp [← h]
  | cons v vs ih =>
    cases h1 : g v with
    | error e => simp [mapValueM, h1, Bind.bind, Except.bind] at h
    | ok w =>
      cases h2 : mapValueM g vs with
      | error e => simp [mapValueM, h1, h2, Bind.bind, Except.bind] at h
      | ok us =>
        simp [mapValueM, h1, h2, Bind.bind, Except.bind] at h
        simp [← h, ih us h2]

/-- `apply_transforms` on a list is the elementwise `apply_transforms`. -/
theorem apply_transforms_vlist (eng : ReEngine) (vs : List Value)
    (ts : List TransformStep) :
    apply_transforms eng (Value.vlist vs) ts
      = (mapValueM (fun v => apply_transforms eng v ts) vs).map Value.vlist := by
  induction ts generalizing vs with
  | nil =>
    show Except.ok (Value.vlist vs) = _
    simp only [apply_transforms, mapValueM_ok_id, Except.map]
  | cons t ts ih =>
    show (apply_transform eng t (Value.vlist vs)).bind
        (fun w => apply_transforms eng w ts) = _
    rw [show apply_transform eng t (Value.vlist vs)
        = (applyTransformList eng t vs).map Value.vlist from rfl,
      applyTransformList_eq_mapValueM]
    have hr : mapValueM (fun v => apply_transforms eng v (t :: ts)) vs
        = (mapValueM (apply_transform eng t) vs).bind
            (mapValueM (fun w => apply_transforms eng w ts)) := by
      rw [← mapValueM_bind]
      simp only [apply_transforms]
    rw [hr]
    cases h : mapValueM (apply_transform eng t) vs with
    | error e => simp [Except.map, Except.bind]
    | ok ws => simpa [Except.map, Except.bind] using ih ws

/-! Claim theorems. -/

/-- C3: if every selector in the candidate chain matches zero elements,
`extract_field_value` returns `None` for a single-valued field and the
empty list for a `multiple` field, without raising. -/
theorem c3_no_candidate_matches (eng : ReEngine) (page : PageState) (f : ExportField)
    (h : ∀ sel ∈ f.selector :: f.fallback_selectors, page.elems sel = []) :
    extract_field_value eng page f
      = if f.multiple then Value.vlist [] else Value.vnone :=
  extractFieldGo_all_empty eng page f _ h

/-- Witness for C3: on a page with no matches, a single-valued field yields
`None` and a multi-valued field yields `[]`. -/
theorem c3_no_candidate_matches_witness :
    extract_field_value engTrivial pageEmpty fieldTitle = Value.vnone ∧
    extract_field_value engTrivial pageEmpty fieldItems = Value.vlist [] := by
  constructor
  · have h := c3_no_candidate_matches engTrivial pageEmpty fieldTitle
      (by intro sel _; rfl)
    simpa [fieldTitle] using h
  · have h := c3_no_candidate_matches engTrivial pageEmpty fieldItems
      (by intro sel _; rfl)
    simpa [fieldItems] using h

/-- C8: `trim` is idempotent, and `default` leaves a value whose trimmed
form is non-empty unchanged, for every configured default. -/
theorem c8_trim_idem_default_noop (eng : ReEngine) (s : String) (x : Option String) :
    apply_transforms eng (Value.vstr s)
        [⟨"trim", none, none, none⟩, ⟨"trim", none, none, none⟩]
      = apply_transforms eng (Value.vstr s) [⟨"trim", none, none, none⟩]
  ∧ (pyStrip s ≠ "" →
      apply_transform eng ⟨"default", none, none, x⟩ (Value.vstr s)
        = .ok (Value.vstr s)) := by
  constructor
  · show Except.ok (Value.vstr (pyStrip (pyStrip s)))
      = Except.ok (Value.vstr (pyStrip s))
    rw [pyStrip_idem]
  · intro h
    show applyTransformStr eng ⟨"default", none, none, x⟩ s = .ok (Value.vstr s)
    simp [applyTransformStr, h]

/-- Witness for C8: `default` is a no-op on `" a "`, whose trimmed form
`"a"` is non-empty. -/
theorem c8_trim_idem_default_noop_witness :
    apply_transform engTrivial ⟨"default", none, none, some "d"⟩ (Value.vstr " a ")
      = .ok (Value.vstr " a ") :=
  (c8_trim_idem_default_noop engTrivial " a " (some "d")).2 (by decide)

/-- C9: a transform whose tag is none of the six recognized ones returns a
string value unchanged. -/
theorem c9_unknown_tag_passthrough (eng : ReEngine) (s : String) (t : TransformStep)
    (h : t.type ∉ (["trim", "strip_html", "extract_number", "regex", "replace",
      "default"] : List String)) :
    apply_transform eng t (Value.vstr s) = .ok (Value.vstr s) := by
  simp only [List.mem_cons, List.not_mem_nil, or_false, not_or] at h
  obtain ⟨h1, h2, h3, h4, h5, h6⟩ := h
  show applyTransformStr eng t s = .ok (Value.vstr s)
  simp [applyTransformStr, h1, h2, h3, h4, h5, h6]

/-- C7: `apply_transforms` on an ordered sequence equals the elementwise
application of `apply_transforms` (so shape and order are preserved, and a
successful run preserves length), and a null scalar input is treated as
the empty string before the first transform runs. -/
theorem c7_transforms_elementwise (eng : ReEngine) :
    (∀ (vs : List Value) (ts : List TransformStep),
        apply_transforms eng (Value.vlist vs) ts
          = (mapValueM (fun v => apply_transforms eng v ts) vs).map Value.vlist)
  ∧ (∀ (t : TransformStep) (ts : List TransformStep),
        apply_transforms eng Value.vnone (t :: ts)
          = apply_transforms eng (Value.vstr "") (t :: ts))
  ∧ (∀ (vs ws : List Value) (ts : List TransformStep),
        apply_transforms eng (Value.vlist vs) ts = .ok (Value.vlist ws) →
        ws.length = vs.length) := by
  refine ⟨apply_transforms_vlist eng, fun t ts => rfl, ?_⟩
  intro vs ws ts h
  rw [apply_transforms_vlist] at h
  cases hm : mapValueM (fun v => apply_transforms eng v ts) vs with
  | error e => rw [hm] at h; simp [Except.map] at h
  | ok us =>
    rw [hm] at h
    simp only [Except.map, Except.ok.injEq] at h
    cases h
    exact mapValueM_ok_length _ vs ws hm

/-- Witness for C7: a two-element list through `trim` keeps its length. -/
theorem c7_transforms_elementwise_witness :
    ([Value.vstr "a", Value.vstr "b"] : List Value).length
      = ([Value.vstr " a ", Value.vstr "b "] : List Value).length :=
  (c7_transforms_elementwise engTrivial).2.2 [Value.vstr " a ", Value.vstr "b "]
    [Value.vstr "a", Value.vstr "b"] [⟨"trim", none, none, none⟩] (by rfl)

/-- C6: the `regex` transform on a well-formed non-empty pattern returns
the whole match when the pattern has no capture groups, the string
captured by group 1 when it has groups, and the empty string when nothing
matches. -/
theorem c6_regex_transform_semantics (eng : ReEngine) (p s : String)
    (hp : p ≠ "") (hc : eng.compiles p = true) :
    (eng.search p s = none →
        apply_transform eng ⟨"regex", some p, none, none⟩ (Value.vstr s)
          = .ok (Value.vstr ""))
  ∧ (∀ m : RMatch, eng.search p s = some m → m.groups = [] →
        apply_transform eng ⟨"regex", some p, none, none⟩ (Value.vstr s)
          = .ok (Value.vstr m.whole))
  ∧ (∀ (m : RMatch) (g : String) (gs : List (Option String)),
        eng.search p s = some m → m.groups = some g :: gs →
        apply_transform eng ⟨"regex", some p, none, none⟩ (Value.vstr s)
          = .ok (Value.vstr g)) := by
  have hshow : apply_transform eng ⟨"regex", some p, none, none⟩ (Value.vstr s)
      = applyTransformStr eng ⟨"regex", some p, none, none⟩ s := rfl
  refine ⟨fun hn => ?_, fun m hm hg => ?_, fun m g gs hm hg => ?_⟩ <;>
    rw [hshow] <;> simp [applyTransformStr, optTruthy, pyOrEmpty, hp, hc, *]

/-- Witness for C6: searching `a(b)` in `xaby` returns the group-1 capture
`b`. -/
theorem c6_regex_transform_semantics_witness :
    apply_transform engSearch ⟨"regex", some "a(b)", none, none⟩ (Value.vstr "xaby")
      = .ok (Value.vstr "b") :=
  (c6_regex_transform_semantics engSearch "a(b)" "xaby" (by decide) rfl).2.2
    { whole := "ab", groups := [some "b"] } "b" [] (by rfl) rfl

/-- C5: with `max_pages = 5`, data on pages 1 and 2 and an empty record on
page 3, the URL-template controller returns exactly the records of pages 1
and 2 and stops eagerly on the first empty page, whatever lies at pages 4
and 5. -/
theorem c5_url_pattern_stops_on_empty (eng : ReEngine) (fetch : Nat → Option PageState)
    (recipe : CrawlRecipe) (pag : PaginationConfig) (tmpl : String)
    (p1 p2 p3 : PageState)
    (hrec : recipe.pagination = some pag)
    (htmpl : pag.url_template = some tmpl) (htne : tmpl ≠ "")
    (hmax : pag.max_pages = 5)
    (hf1 : fetch 1 = some p1) (hf2 : fetch 2 = some p2) (hf3 : fetch 3 = some p3)
    (hd1 : recordHasData (extract_data_from_page eng p1 recipe) = true)
    (hd2 : recordHasData (extract_data_from_page eng p2 recipe) = true)
    (hd3 : recordHasData (extract_data_from_page eng p3 recipe) = false) :
    handle_url_pattern_pagination eng fetch recipe
      = ([extract_data_from_page eng p1 recipe, extract_data_from_page eng p2 recipe],
         TermReason.emptyPage) := by
  have h0 : handle_url_pattern_pagination eng fetch recipe
      = urlPatternLoop eng fetch recipe pag.max_pages 1 [] := by
    unfold handle_url_pattern_pagination
    rw [hrec]
    simp [optTruthy, htmpl, htne]
  have s1 : urlPatternLoop eng fetch recipe 5 1 []
      = urlPatternLoop eng fetch recipe 4 2 [extract_data_from_page eng p1 recipe] := by
    show urlPatternLoop eng fetch recipe (4 + 1) 1 [] = _
    simp [urlPatternLoop, hf1, hd1]
  have s2 : urlPatternLoop eng fetch recipe 4 2 [extract_data_from_page eng p1 recipe]
      = urlPatternLoop eng fetch recipe 3 3
          [extract_data_from_page eng p1 recipe, extract_data_from_page eng p2 recipe] := by
    show urlPatternLoop eng fetch recipe (3 + 1) 2 _ = _
    simp [urlPatternLoop, hf2, hd2]
  have s3 : urlPatternLoop eng fetch recipe 3 3
        [extract_data_from_page eng p1 recipe, extract_data_from_page eng p2 recipe]
      = ([extract_data_from_page eng p1 recipe, extract_data_from_page eng p2 recipe],
         TermReason.emptyPage) := by
    show urlPatternLoop eng fetch recipe (2 + 1) 3 _ = _
    simp [urlPatternLoop, hf3, hd3]
  rw [h0, hmax, s1, s2, s3]

/-- Witness for C5: a concrete run where page 3's record has no data stops
with the records of pages 1 and 2. -/
theorem c5_url_pattern_stops_on_empty_witness :
    handle_url_pattern_pagination engTrivial fetchW recipeUrl
      = ([extract_data_from_page engTrivial pageA recipeUrl,
          extract_data_from_page engTrivial pageB recipeUrl],
         TermReason.emptyPage) :=
  c5_url_pattern_stops_on_empty engTrivial fetchW recipeUrl
    ⟨"url_pattern", none, some "u?page=\x7bpage\x7d", 5, 1000⟩ "u?page=\x7bpage\x7d"
    pageA pageB pageEmpty rfl rfl (by decide) rfl rfl rfl rfl (by rfl) (by rfl) (by rfl)

/-- Counterexample for C2: with the next button present on exactly the
first 3 page states (all states carrying data) and `max_pages = 10`, the
controller appends four records — the record of the page state reached
after the third click is also extracted and appended before the missing
button is noticed — so the result is not exactly the records of the 3
button-bearing states. -/
theorem c2_next_button_counterexample :
    handle_next_button_pagination engTrivial envNext recipeNext
        = ([titleRecord, titleRecord, titleRecord, titleRecord],
           TermReason.noNextButton)
  ∧ (handle_next_button_pagination engTrivial envNext recipeNext).1
      ≠ [titleRecord, titleRecord, titleRecord] := by
  constructor
  · rfl
  · intro h
    have h4 : (handle_next_button_pagination engTrivial envNext recipeNext).1
        = [titleRecord, titleRecord, titleRecord, titleRecord] := rfl
    rw [h4] at h
    simp at h

/-- C2 (amended): when the next-button selector matches exactly one enabled
button on page states 0, 1, 2 and zero elements on state 3, with
`maxPages = 10` and data on every state, the controller appends the records
of the 3 button-bearing states plus the record of the state reached after
the third click, then terminates because zero elements match
(`NoNextButton`). -/
theorem c2_next_button_appends_through_vanish (eng : ReEngine)
    (env : Nat → PageState) (recipe : CrawlRecipe) (pag : PaginationConfig)
    (sel : String) (b0 b1 b2 : Elem)
    (hrec : recipe.pagination = some pag)
    (hsel : pag.selector = some sel) (hsne : sel ≠ "")
    (hmax : pag.max_pages = 10)
    (hb0 : (env 0).elems sel = [b0])
    (hb1 : (env 1).elems sel = [b1])
    (hb2 : (env 2).elems sel = [b2])
    (hb3 : (env 3).elems sel = [])
    (hdis0 : (optTruthy (b0.getAttribute "disabled")
        || optTruthy (b0.getAttribute "aria-disabled")) = false)
    (hdis1 : (optTruthy (b1.getAttribute "disabled")
        || optTruthy (b1.getAttribute "aria-disabled")) = false)
    (hdis2 : (optTruthy (b2.getAttribute "disabled")
        || optTruthy (b2.getAttribute "aria-disabled")) = false)
    (hr0 : recordHasData (extract_data_from_page eng (env 0) recipe) = true)
    (hr1 : recordHasData (extract_data_from_page eng (env 1) recipe) = true)
    (hr2 : recordHasData (extract_data_from_page eng (env 2) recipe) = true)
    (hr3 : recordHasData (extract_data_from_page eng (env 3) recipe) = true) :
    handle_next_button_pagination eng env recipe
      = ([extract_data_from_page eng (env 0) recipe,
          extract_data_from_page eng (env 1) recipe,
          extract_data_from_page eng (env 2) recipe,
          extract_data_from_page eng (env 3) recipe],
         TermReason.noNextButton) := by
  have h0 : handle_next_button_pagination eng env recipe
      = nextButtonLoop eng env recipe pag pag.max_pages 0 [] := by
    unfold handle_next_button_pagination
    rw [hrec]
  have s1 : nextButtonLoop eng env recipe pag 10 0 []
      = nextButtonLoop eng env recipe pag 9 1
          [extract_data_from_page eng (env 0) recipe] := by
    show nextButtonLoop eng env recipe pag (9 + 1) 0 [] = _
    simp [nextButtonLoop, hr0, hsel, optTruthy_some, hsne, pyOrEmpty_some, hb0, hdis0]
  have s2 : nextButtonLoop eng env recipe pag 9 1
        [extract_data_from_page eng (env 0) recipe]
      = nextButtonLoop eng env recipe pag 8 2
          [extract_data_from_page eng (env 0) recipe,
           extract_data_from_page eng (env 1) recipe] := by
    show nextButtonLoop eng env recipe pag (8 + 1) 1 _ = _
    simp [nextButtonLoop, hr1, hsel, optTruthy_some, hsne, pyOrEmpty_some, hb1, hdis1]
  have s3 : nextButtonLoop eng env recipe pag 8 2
        [extract_data_from_page eng (env 0) recipe,
         extract_data_from_page eng (env 1) recipe]
      = nextButtonLoop eng env recipe pag 7 3
          [extract_data_from_page eng (env 0) recipe,
           extract_data_from_page eng (env 1) recipe,
           extract_data_from_page eng (env 2) recipe] := by
    show nextButtonLoop eng env recipe pag (7 + 1) 2 _ = _
    simp [nextButtonLoop, hr2, hsel, optTruthy_some, hsne, pyOrEmpty_some, hb2, hdis2]
  have s4 : nextButtonLoop eng env recipe pag 7 3
        [extract_data_from_page eng (env 0) recipe,
         extract_data_from_page eng (env 1) recipe,
         extract_data_from_page eng (env 2) recipe]
      = ([extract_data_from_page eng (env 0) recipe,
          extract_data_from_page eng (env 1) recipe,
          extract_data_from_page eng (env 2) recipe,
          extract_data_from_page eng (env 3) recipe],
         TermReason.noNextButton) := by
    show nextButtonLoop eng env recipe pag (6 + 1) 3 _ = _
    simp [nextButtonLoop, hr3, hsel, optTruthy_some, hsne, pyOrEmpty_some, hb3]
  rw [h0, hmax, s1, s2, s3, s4]

/-- Witness for C2 (amended): the concrete three-buttons-then-gone run
yields the four records and stops with no next button. -/
theorem c2_next_button_appends_through_vanish_witness :
    handle_next_button_pagination engTrivial envNext recipeNext
      = ([extract_data_from_page engTrivial (envNext 0) recipeNext,
          extract_data_from_page engTrivial (envNext 1) recipeNext,
          extract_data_from_page engTrivial (envNext 2) recipeNext,
          extract_data_from_page engTrivial (envNext 3) recipeNext],
         TermReason.noNextButton) :=
  c2_next_button_appends_through_vanish engTrivial envNext recipeNext
    ⟨"next_button", some ".next", none, 10, 1000⟩ ".next" elemBtn elemBtn elemBtn
    rfl rfl (by decide) rfl rfl rfl rfl rfl rfl rfl rfl
    (by rfl) (by rfl) (by rfl) (by rfl)

/-- C1 evaluated at the failing input: a recipe with one `multiple` field
whose matched-element count is 2, 3, 4, 4, 4, … (growth stops after the
first three states) under `maxScrolls = 20`.  Because `last_results_count`
is never updated from its initial 0, every non-empty list counts as
"growth", the no-new-content streak never reaches 3, and the run goes all
the way to the scroll cap instead of stalling after 3 non-growth scrolls as
the claim (and the surrounding code's own messages) intend. -/
theorem c1_stall_detection_never_fires :
    handle_infinite_scroll_pagination engTrivial envScroll recipeScroll
      = ([itemsRecord 2, itemsRecord 3, itemsRecord 4],
         TermReason.maxScrollsReached) := by
  rfl

/-- Counterexample for C4: the pattern `"("` does not compile on
`engParen`, yet `parse_recipe` accepts the document carrying it with no
validation error of any kind, and the failure instead surfaces as a raised
exception inside `apply_transform` at extraction time. -/
theorem c4_load_time_validation_counterexample :
    engParen.compiles "(" = false
  ∧ parse_recipe badRecipeDoc
      = { name := "r", url_pattern := "u", version := "1.0",
          fields := [{ field_name := "f", selector := "s", selector_type := "css",
                       extract := { type := "text", attributeName := none },
                       transforms := [⟨"regex", some "(", none, none⟩],
                       multiple := false, fallback_selectors := [],
                       list_container := none }],
          pagination := none }
  ∧ apply_transform engParen ⟨"regex", some "(", none, none⟩ (Value.vstr "abc")
      = .error () :=
  ⟨rfl, rfl, rfl⟩

/-- C4 (amended): `parse_recipe` performs no pattern validation — patterns
pass through loading untouched; a non-compiling pattern raises inside
`apply_transform` at extraction time (for both `regex` and `replace`); and
`extract_field_value`'s per-candidate exception handling swallows that
raise, yielding the absent value for the field instead of propagating. -/
theorem c4_pattern_failure_behavior :
    (∀ d : RecipeDoc,
        (parse_recipe d).fields.map (fun f => f.transforms.map (fun t => t.pattern))
          = (d.fields.getD []).map (fun f =>
              (f.transforms.getD []).map (fun t => t.pattern)))
  ∧ (∀ (eng : ReEngine) (p s : String), p ≠ "" → eng.compiles p = false →
        apply_transform eng ⟨"regex", some p, none, none⟩ (Value.vstr s) = .error ()
      ∧ apply_transform eng ⟨"replace", some p, none, none⟩ (Value.vstr s) = .error ())
  ∧ (∀ (eng : ReEngine) (page : PageState) (f : ExportField) (e : Elem)
        (rest : List Elem) (s : String),
        f.multiple = false → f.fallback_selectors = [] →
        page.elems f.selector = e :: rest →
        extract_from_locator e f.extract = some s →
        apply_transforms eng (Value.vstr s) f.transforms = .error () →
        extract_field_value eng page f = Value.vnone) := by
  refine ⟨?_, ?_, ?_⟩
  · intro d
    simp [parse_recipe, List.map_map, Function.comp_def]
  · intro eng p s hp hc
    constructor <;>
      · show applyTransformStr eng _ _ = _
        simp [applyTransformStr, optTruthy_some, pyOrEmpty_some, hp, hc]
  · intro eng page f e rest s hm hfb he hx ht
    unfold extract_field_value
    rw [hfb]
    have hcand : extractCandidate eng page f f.selector = none := by
      unfold extractCandidate
      simp [hm, he, hx, ht]
    simp [extractFieldGo, hcand, hm]

/-- Witness for C4 (amended): a non-compiling `replace` pattern raises at
extraction time. -/
theorem c4_pattern_failure_behavior_witness :
    apply_transform engParen ⟨"replace", some "(", none, none⟩ (Value.vstr "zz")
      = .error () :=
  (c4_pattern_failure_behavior.2.1 engParen "(" "zz" (by decide) rfl).2

/-- C10: with no pagination — or a pagination type that is none of the
three recognized strategies — the run emits exactly one record, built from
the initially loaded page, with no has-data filtering. -/
theorem c10_single_page_one_record (eng : ReEngine) (world : World)
    (recipe : CrawlRecipe)
    (h : recipe.pagination = none
      ∨ ∃ pag, recipe.pagination = some pag ∧ pag.type ≠ "next_button"
          ∧ pag.type ≠ "url_pattern" ∧ pag.type ≠ "infinite_scroll") :
    executeRecipeResults eng world recipe
      = [extract_data_from_page eng world.initial recipe] := by
  unfold executeRecipeResults
  rcases h with h | ⟨pag, hrec, h1, h2, h3⟩
  · rw [h]
  · rw [hrec]
    simp [h1, h2, h3]

/-- Witness for C10: a pagination-free recipe on an empty page yields
exactly one record, and that record has no data — it is still included. -/
theorem c10_single_page_one_record_witness :
    executeRecipeResults engTrivial worldEmpty recipeNoPag
        = [extract_data_from_page engTrivial worldEmpty.initial recipeNoPag]
  ∧ recordHasData (extract_data_from_page engTrivial worldEmpty.initial recipeNoPag)
      = false :=
  ⟨c10_single_page_one_record engTrivial worldEmpty recipeNoPag (Or.inl rfl), rfl⟩

/-- Witness for C9: the unknown tag `"upper"` passes a string through. -/
theorem c9_unknown_tag_passthrough_witness :
    apply_transform engTrivial ⟨"upper", none, none, none⟩ (Value.vstr "abc")
      = .ok (Value.vstr "abc") :=
  c9_unknown_tag_passthrough engTrivial "abc" ⟨"upper", none, none, none⟩ (by decide)

end CrawlRecipeExec
